import Mathlib

/-!
Shallow embedding of the anomaly-detection and statistics engine of the
smart water pressure management system (`utils/anomaly_detection.py`,
`utils/analytics.py`, `main.py`).

Modelling conventions:
* Sensor readings are stored as lists of records, in the row order of the
  underlying DataFrame.  Numeric reading values are rationals.
* Timestamps are minutes since an epoch (`ℕ`); `pandas` hour extraction
  `timestamp.dt.hour` becomes `t / 60 % 24`.
* Python `round(x, n)` (banker rounding) is modelled by half-even
  rounding on `ℚ`.
* The z-score `|v − μ| / σ` uses the irrational σ = √variance; all
  comparisons the code makes against a nonnegative bound `t` are modelled
  by the equivalent squared comparison `(v − μ)² > t² · σ²`, which stays
  inside `ℚ`.  Records therefore carry the square of the source z-score.
  `pandas` computes the sample standard deviation (`ddof = 1`).
* A zone whose readings are constant has σ = 0 and the source z-scores
  are NaN (`0/0`); every NaN comparison is false, so no row passes the
  threshold.  In `ℚ` the convention `0 / 0 = 0` gives the same outcome:
  for such a zone each `(v − μ)² = 0` and the threshold test `0 > 0`
  fails.
* String-valued fields (severity, anomaly type, recommended actions)
  keep the exact strings of the source.
* Identifiers (`zone_id`, `zone_name`, `sensor_id`) are opaque and
  modelled as naturals.
-/

namespace WaterSys

/-- Half-even (banker) rounding of a rational to an integer,
the rounding used by the Python builtin `round`. -/
def roundHalfEven (x : ℚ) : ℤ :=
  let f := ⌊x⌋
  let r := x - f
  if r < 1/2 then f
  else if 1/2 < r then f + 1
  else if f % 2 = 0 then f else f + 1

/-- Python `round(x, 2)`. -/
def round2 (x : ℚ) : ℚ := (roundHalfEven (x * 100) : ℚ) / 100

/-- Python `round(x, 0)`. -/
def round0 (x : ℚ) : ℚ := (roundHalfEven x : ℚ)

/-- Python `round(x, 4)`. -/
def round4 (x : ℚ) : ℚ := (roundHalfEven (x * 10000) : ℚ) / 10000

/-- Model of `Series.mean` over the list of values of a column. -/
def mean (l : List ℚ) : ℚ := l.sum / l.length

/-- Model of `Series.var` with the default `ddof = 1` (square of
`Series.std`).  For a singleton list the source value is NaN; the `ℚ`
convention `0 / 0 = 0` is observationally equivalent here because every
comparison the engine performs with a NaN variance is false, exactly as
the `0` value makes the squared threshold test `0 > 0` false. -/
def var1 (l : List ℚ) : ℚ :=
  (l.map (fun x => (x - mean l) ^ 2)).sum / ((l.length : ℚ) - 1)

/-- Key order produced by `Series.unique()`: first-occurrence order. -/
def firstUniques (l : List ℕ) : List ℕ :=
  l.foldl (fun acc x => if x ∈ acc then acc else acc ++ [x]) []

/-- Key order produced by `DataFrame.groupby` (default `sort=True`):
distinct keys in ascending order. -/
def sortedUniques (l : List ℕ) : List ℕ :=
  List.insertionSort (· ≤ ·) (firstUniques l)

/-- Hour of day, `timestamp.dt.hour`, for a timestamp in minutes since the epoch. -/
def hourOf (t : ℕ) : ℕ := t / 60 % 24

/-- One row of `pressure_data.csv` (schema written by the upstream data
generator): timestamp, zone_id, zone_name, sensor_id, pressure_psi,
elevation, status. -/
structure PressureRow where
  ts : ℕ
  zone_id : ℕ
  zone_name : ℕ
  sensor_id : ℕ
  pressure : ℚ
  elevation : ℚ
  status : ℕ
deriving DecidableEq, Repr

/-- One row of `flow_data.csv`: timestamp, zone_id, zone_name,
flow_rate_lpm, population.  The `hour` field models the derived column
that `detect_flow_anomalies` / `detect_leaks` assign onto the stored
DataFrame (the assignment of `dt.hour` onto `self.flow_df`); it is absent (`none`) until a
flow detector runs. -/
structure FlowRow where
  ts : ℕ
  zone_id : ℕ
  zone_name : ℕ
  flow : ℚ
  population : ℚ
  hour : Option ℕ
deriving DecidableEq, Repr

/-- An emitted pressure anomaly record (`detect_pressure_anomalies`).
`zscore_sq` is the square of the z-score of the source (the source stores
`round(z, 2)`; σ is irrational, so the model carries z² instead — no
claim refers to the stored rounded score itself). -/
structure PressureAnomaly where
  ts : ℕ
  zone_id : ℕ
  zone_name : ℕ
  sensor_id : ℕ
  pressure : ℚ
  expected : ℚ
  deviation : ℚ
  zscore_sq : ℚ
  anomaly_type : String
  severity : String
deriving DecidableEq, Repr

/-- Model of `_classify_severity`, expressed on the square of the z-score
(the source compares `z > 4`, `z > 3`, `z > 2.5` with `z ≥ 0`). -/
def classifySeveritySq (zsq : ℚ) : String :=
  if 16 < zsq then "critical"
  else if 9 < zsq then "high"
  else if 25/4 < zsq then "moderate"
  else "low"

/-- Mean pressure of one zone (the per-zone baseline μ of
`detect_pressure_anomalies`). -/
def zoneMeanPressure (rows : List PressureRow) (z : ℕ) : ℚ :=
  mean ((rows.filter (fun r => r.zone_id == z)).map (·.pressure))

/-- Sample variance of the pressures of one zone (σ² of
`detect_pressure_anomalies`). -/
def zoneVarPressure (rows : List PressureRow) (z : ℕ) : ℚ :=
  var1 ((rows.filter (fun r => r.zone_id == z)).map (·.pressure))

/-- Body of the per-zone loop of `detect_pressure_anomalies`: z-score
each reading of the zone against the per-zone μ and σ and emit the rows
with `z_score > threshold_std`. -/
def pressureAnomaliesForZone (t : ℚ) (rows : List PressureRow) (z : ℕ) :
    List PressureAnomaly :=
  let zd : List PressureRow := rows.filter (fun r => r.zone_id == z)
  let μ : ℚ := mean (zd.map (·.pressure))
  let v : ℚ := var1 (zd.map (·.pressure))
  (zd.filter (fun r => decide ((t ^ 2 * v : ℚ) < ((r.pressure - μ) ^ 2 : ℚ)))).map (fun r =>
    { ts := r.ts, zone_id := r.zone_id, zone_name := r.zone_name
      sensor_id := r.sensor_id, pressure := r.pressure
      expected := round2 μ
      deviation := round2 (r.pressure - μ)
      zscore_sq := (r.pressure - μ) ^ 2 / v
      anomaly_type := if r.pressure < μ then "pressure_drop" else "pressure_spike"
      severity := classifySeveritySq ((r.pressure - μ) ^ 2 / v) })

/-- Model of `detect_pressure_anomalies(threshold_std)`: per zone (in
`unique()` order), statistical outlier detection on all pressure readings of the zone. -/
def detectPressureAnomalies (t : ℚ) (rows : List PressureRow) :
    List PressureAnomaly :=
  (firstUniques (rows.map (·.zone_id))).flatMap (pressureAnomaliesForZone t rows)

/-- An emitted flow anomaly record (`detect_flow_anomalies`). -/
structure FlowAnomaly where
  ts : ℕ
  zone_id : ℕ
  zone_name : ℕ
  flow : ℚ
  expected : ℚ
  deviation : ℚ
  zscore_sq : ℚ
  anomaly_type : String
  severity : String
  potential_cause : String
deriving DecidableEq, Repr

/-- Model of `_identify_cause(actual_flow, expected_flow, hour)`. -/
def identifyCause (actual expectedFlow : ℚ) (hour : ℕ) : String :=
  if expectedFlow * (3/2) < actual then
    if hour ≤ 5 then "Potential leak (high night flow)"
    else "Unusual high demand or unauthorized usage"
  else "Supply interruption or valve issue"

/-- The (zone, hour-of-day) bucket of flow readings that
`detect_flow_anomalies` baselines against. -/
def flowBucket (rows : List FlowRow) (z h : ℕ) : List FlowRow :=
  rows.filter (fun r => r.zone_id == z && hourOf r.ts == h)

/-- Body of the per-(zone, hour) loop of `detect_flow_anomalies`: skip
buckets with fewer than 5 observations or zero variance, otherwise
z-score each reading of the bucket and emit the rows with
`z_score > threshold_std`. -/
def flowAnomaliesForZoneHour (t : ℚ) (rows : List FlowRow) (z h : ℕ) :
    List FlowAnomaly :=
  let hd : List FlowRow := flowBucket rows z h
  if hd.length < 5 then []
  else
    let μ : ℚ := mean (hd.map (·.flow))
    let v : ℚ := var1 (hd.map (·.flow))
    if v = 0 then []
    else
      (hd.filter (fun r => decide ((t ^ 2 * v : ℚ) < ((r.flow - μ) ^ 2 : ℚ)))).map (fun r =>
        { ts := r.ts, zone_id := r.zone_id, zone_name := r.zone_name
          flow := r.flow
          expected := round2 μ
          deviation := round2 (r.flow - μ)
          zscore_sq := (r.flow - μ) ^ 2 / v
          anomaly_type := if μ < r.flow then "excessive_flow" else "low_flow"
          severity := classifySeveritySq ((r.flow - μ) ^ 2 / v)
          potential_cause := identifyCause r.flow μ (hourOf r.ts) })

/-- Model of `detect_flow_anomalies(threshold_std)`: per zone (in `unique()`
order) and per hour-of-day 0–23, statistical outlier detection against
the (zone, hour) baseline. -/
def detectFlowAnomalies (t : ℚ) (rows : List FlowRow) : List FlowAnomaly :=
  (firstUniques (rows.map (·.zone_id))).flatMap (fun z =>
    (List.range 24).flatMap (fun h => flowAnomaliesForZoneHour t rows z h))

/-- An emitted leak record (`detect_leaks`). -/
structure LeakRecord where
  zone_id : ℕ
  zone_name : ℕ
  avg_night_flow : ℚ
  daily_loss : ℚ
  monthly_loss : ℚ
  severity : String
  confidence : String
  action : String
deriving DecidableEq, Repr

/-- The night-hour (0–5 AM inclusive) restriction of the flow readings
(`hour >= 0` is vacuous for natural hours). -/
def nightRows (rows : List FlowRow) : List FlowRow :=
  rows.filter (fun r => hourOf r.ts ≤ 5)

/-- Mean night flow of one zone (`avg_night_flow` of `detect_leaks`). -/
def nightMeanFlow (rows : List FlowRow) (z : ℕ) : ℚ :=
  mean (((nightRows rows).filter (fun r => r.zone_id == z)).map (·.flow))

/-- Model of `zone_night[zone_name].iloc[0]` (defaults to 0 on an empty list,
which cannot occur for a zone drawn from the night rows). -/
def headZoneName : List FlowRow → ℕ
  | [] => 0
  | r :: _ => r.zone_name

/-- Body of the per-zone loop of `detect_leaks`: emit one record when
the mean night flow of the zone exceeds the threshold. -/
def leakForZone (thr : ℚ) (rows : List FlowRow) (z : ℕ) : List LeakRecord :=
  let zn : List FlowRow := (nightRows rows).filter (fun r => r.zone_id == z)
  let avg : ℚ := mean (zn.map (·.flow))
  if thr < avg then
    [{ zone_id := z
       zone_name := headZoneName zn
       avg_night_flow := round2 avg
       daily_loss := round0 (avg * 60 * 24)
       monthly_loss := round0 (avg * 60 * 24 * 30)
       severity := if 500 < avg then "high" else "moderate"
       confidence := if 400 < avg then "high" else "medium"
       action := if 500 < avg then "Immediate inspection required"
                 else "Schedule inspection" }]
  else []

/-- Model of `detect_leaks(night_flow_threshold)`: per zone of the night-hour
rows (in `unique()` order), night-flow based leak inference. -/
def detectLeaks (thr : ℚ) (rows : List FlowRow) : List LeakRecord :=
  (firstUniques ((nightRows rows).map (·.zone_id))).flatMap (leakForZone thr rows)

/-- An emitted burst record (`detect_burst_events`). -/
structure BurstRecord where
  ts : ℕ
  zone_id : ℕ
  zone_name : ℕ
  sensor_id : ℕ
  pressure_before : ℚ
  pressure_after : ℚ
  pressure_drop : ℚ
  severity : String
  event_type : String
  action : String
deriving DecidableEq, Repr

/-- Model of `sort_values` by timestamp on the readings of one sensor.
The model uses a stable insertion sort; the pandas default sort is only unspecified on
ties, and on the small concrete datasets used below (where it falls back
to an insertion sort) it is stable as well. -/
def sortByTs (l : List PressureRow) : List PressureRow :=
  List.insertionSort (fun a b => a.ts ≤ b.ts) l

/-- Consecutive pairs of a list: the pairs `(previous, current)` over
which `Series.diff()` is defined (the NaN difference of the first row never
passes the comparison and is dropped). -/
def consecPairs (l : List α) : List (α × α) := l.zip l.tail

/-- The per-sensor body of `detect_burst_events` applied to the
timestamp-sorted readings of one sensor: select the consecutive pairs
whose difference is below `-pressure_drop_threshold` and record them. -/
def burstsOfSorted (thr : ℚ) (s : List PressureRow) : List BurstRecord :=
  ((consecPairs s).filter
      (fun (pc : PressureRow × PressureRow) =>
        decide ((pc.2.pressure - pc.1.pressure : ℚ) < -thr))).map
    (fun (pc : PressureRow × PressureRow) =>
    { ts := pc.2.ts, zone_id := pc.2.zone_id, zone_name := pc.2.zone_name
      sensor_id := pc.2.sensor_id
      pressure_before := round2 (pc.2.pressure - (pc.2.pressure - pc.1.pressure))
      pressure_after := round2 pc.2.pressure
      pressure_drop := round2 |pc.2.pressure - pc.1.pressure|
      severity := if 25 < |pc.2.pressure - pc.1.pressure| then "critical" else "high"
      event_type := "potential_burst"
      action := "Emergency response required" })

/-- Model of `detect_burst_events(pressure_drop_threshold)`: per sensor (in
`unique()` order), change-point detection on the per-sensor
timestamp-sorted pressure series. -/
def detectBurstEvents (thr : ℚ) (rows : List PressureRow) : List BurstRecord :=
  (firstUniques (rows.map (·.sensor_id))).flatMap (fun s =>
    burstsOfSorted thr (sortByTs (rows.filter (fun r => r.sensor_id == s))))

/-- The count summary built by `get_anomaly_summary`. -/
structure AnomalySummary where
  total_pressure_anomalies : ℕ
  total_flow_anomalies : ℕ
  potential_leaks : ℕ
  potential_bursts : ℕ
  critical_events : ℕ
deriving DecidableEq, Repr

/-- Model of `get_anomaly_summary()`: runs the four detectors at their default
thresholds and assembles the count dictionary.  `critical_events`
filters the pressure-anomaly and burst frames on their `severity`
column; a DataFrame built from an empty list has no columns, so that
column access raises a severity KeyError whenever the corresponding
detector emitted nothing — modelled by the `Except.error` branches. -/
def getAnomalySummary (prows : List PressureRow) (frows : List FlowRow) :
    Except String AnomalySummary :=
  let pa := detectPressureAnomalies (5/2) prows
  let fa := detectFlowAnomalies 2 frows
  let lk := detectLeaks 300 frows
  let bu := detectBurstEvents 15 prows
  if pa.isEmpty then Except.error "KeyError: severity"
  else if bu.isEmpty then Except.error "KeyError: severity"
  else Except.ok
    { total_pressure_anomalies := pa.length
      total_flow_anomalies := fa.length
      potential_leaks := lk.length
      potential_bursts := bu.length
      critical_events := (pa.filter (fun r => r.severity == "critical")).length
        + (bu.filter (fun r => r.severity == "critical")).length }

/-- An IEEE-754-style extended value, as produced by `numpy` float
division: a finite rational, `+inf`, `-inf`, or NaN.  Division by zero
does not raise in `numpy`/`pandas`; it yields one of the non-finite
values according to the sign of the numerator. -/
inductive XVal where
  | fin : ℚ → XVal
  | pinf : XVal
  | ninf : XVal
  | nan : XVal
deriving DecidableEq, Repr

/-- Float division `a / b` as numpy performs it (never raises). -/
def divX (a b : ℚ) : XVal :=
  if b = 0 then
    if 0 < a then XVal.pinf else if a < 0 then XVal.ninf else XVal.nan
  else XVal.fin (a / b)

/-- Multiplication of an extended value by a positive constant (used
only with `c = 1000`), following IEEE semantics. -/
def mulXpos (c : ℚ) : XVal → XVal
  | XVal.fin q => XVal.fin (q * c)
  | XVal.pinf => XVal.pinf
  | XVal.ninf => XVal.ninf
  | XVal.nan => XVal.nan

/-- Model of `Series.round(4)` on an extended value (`np.round` maps infinities
and NaN to themselves). -/
def round4X : XVal → XVal
  | XVal.fin q => XVal.fin (round4 q)
  | XVal.pinf => XVal.pinf
  | XVal.ninf => XVal.ninf
  | XVal.nan => XVal.nan

/-- One output row of `get_flow_statistics` (grouped by zone name). -/
structure FlowStats where
  zone_name : ℕ
  avg_flow : ℚ
  min_flow : ℚ
  max_flow : ℚ
  total_flow : ℚ
  population : ℚ
  per_capita_flow : XVal
deriving DecidableEq, Repr

/-- Model of `Series.min` (the empty case cannot occur for a group key drawn
from the grouped rows). -/
def listMin : List ℚ → ℚ
  | [] => 0
  | x :: xs => xs.foldl min x

/-- Model of `Series.max`. -/
def listMax : List ℚ → ℚ
  | [] => 0
  | x :: xs => xs.foldl max x

/-- Model of the `iloc[0]`-style `first` aggregation on the population
column (defaults to 0 on an empty group, which cannot occur). -/
def headPopulation : List FlowRow → ℚ
  | [] => 0
  | r :: _ => r.population

/-- The per-group body of `get_flow_statistics`: mean/min/max/sum of
flow and first population, all rounded to 2 decimals by the
`.round(2)` on the aggregated frame, then per-capita flow
`avg_flow / population * 1000` rounded to 4 decimals.  The division
uses the already-rounded `avg_flow` column and follows IEEE semantics
when `population` is zero. -/
def flowStatsForZone (rows : List FlowRow) (z : ℕ) : FlowStats :=
  let zd : List FlowRow := rows.filter (fun r => r.zone_name == z)
  let avg : ℚ := round2 (mean (zd.map (·.flow)))
  let pop : ℚ := round2 (headPopulation zd)
  { zone_name := z
    avg_flow := avg
    min_flow := round2 (listMin (zd.map (·.flow)))
    max_flow := round2 (listMax (zd.map (·.flow)))
    total_flow := round2 (zd.map (·.flow)).sum
    population := pop
    per_capita_flow := round4X (mulXpos 1000 (divX avg pop)) }

/-- Model of `get_flow_statistics()`: per-zone flow statistics, grouped by zone
name (`groupby` sorts its keys ascending). -/
def getFlowStatistics (rows : List FlowRow) : List FlowStats :=
  (sortedUniques (rows.map (·.zone_name))).map (flowStatsForZone rows)

/-- One output row of `get_low_pressure_zones`. -/
structure LowPressureSummary where
  zone_name : ℕ
  low_pressure_count : ℕ
  avg_low_pressure : ℚ
  zone_id : ℕ
deriving DecidableEq, Repr

/-- Model of the `first` aggregation on the zone id column. -/
def headPZoneId : List PressureRow → ℕ
  | [] => 0
  | r :: _ => r.zone_id

/-- The trailing-7-day window test of `get_low_pressure_zones`:
`timestamp >= datetime.now() - timedelta(days=7)`, with `now` the
wall-clock reference in minutes (7 days = 10080 minutes; the condition
is written additively to avoid truncated subtraction on `ℕ`). -/
def inRecentWindow (now : ℕ) (r : PressureRow) : Prop := now ≤ r.ts + 10080

instance (now : ℕ) (r : PressureRow) : Decidable (inRecentWindow now r) := by
  unfold inRecentWindow; infer_instance

/-- Model of `get_low_pressure_zones(threshold=35)`: restrict to the trailing
7-day window from the wall-clock `now` read inside the function, keep
readings below the threshold, group by zone name (count, mean, first
zone id, rounded to 2 decimals), and sort by count descending. -/
def getLowPressureZones (threshold : ℚ) (now : ℕ) (rows : List PressureRow) :
    List LowPressureSummary :=
  let recent : List PressureRow := rows.filter (fun r => decide (inRecentWindow now r))
  let lowp : List PressureRow := recent.filter (fun r => decide (r.pressure < threshold))
  let groups : List LowPressureSummary :=
    (sortedUniques (lowp.map (·.zone_name))).map (fun z =>
      let zd : List PressureRow := lowp.filter (fun r => r.zone_name == z)
      { zone_name := z
        low_pressure_count := zd.length
        avg_low_pressure := round2 (mean (zd.map (·.pressure)))
        zone_id := headPZoneId zd })
  List.insertionSort (fun a b => b.low_pressure_count ≤ a.low_pressure_count) groups

/-- One recommendation produced by `get_recommendations` in `main.py`.
The source renders `impact` into a formatted string
(e.g. `f"Estimated loss: {..:,.0f} liters/day"`); the model keeps the
underlying number. -/
structure Recommendation where
  priority : String
  zone : ℕ
  issue : String
  recommendation : String
  impact : ℚ
deriving DecidableEq, Repr

/-- Model of `get_recommendations()` from `main.py`: low-pressure zones with
more than 50 events in the trailing window, then every leak, then every
burst, at the default thresholds.  `now` is the wall-clock instant read
by `get_low_pressure_zones` during the call. -/
def getRecommendations (prows : List PressureRow) (frows : List FlowRow)
    (now : ℕ) : List Recommendation :=
  ((getLowPressureZones 35 now prows).filter
      (fun z => decide (50 < z.low_pressure_count))).map (fun z =>
    { priority := "high", zone := z.zone_name
      issue := "Frequent low pressure"
      recommendation := "Install booster pumps or check for leaks"
      impact := (z.low_pressure_count : ℚ) })
  ++ (detectLeaks 300 frows).map (fun l =>
    { priority := l.severity, zone := l.zone_name
      issue := "Potential water leak"
      recommendation := l.action
      impact := l.daily_loss })
  ++ (detectBurstEvents 15 prows).map (fun b =>
    { priority := "critical", zone := b.zone_name
      issue := "Potential pipe burst"
      recommendation := b.action
      impact := b.pressure_drop })

/-- The mutable state of an `AnomalyDetector` object: the two stored
DataFrames. -/
structure DetectorState where
  pressure_df : List PressureRow
  flow_df : List FlowRow
deriving DecidableEq, Repr

/-- The column assignment of `dt.hour` onto `self.flow_df` executed by
`detect_flow_anomalies` and `detect_leaks` on the stored flow
DataFrame. -/
def addHourColumn (l : List FlowRow) : List FlowRow :=
  l.map (fun r => { r with hour := some (hourOf r.ts) })

/-- Method form of `detect_pressure_anomalies`: reads the stored pressure
frame (working on a `.copy()`), leaving the state unchanged. -/
def runDetectPressureAnomalies (t : ℚ) (st : DetectorState) :
    DetectorState × List PressureAnomaly :=
  (st, detectPressureAnomalies t st.pressure_df)

/-- Method form of `detect_flow_anomalies`: assigns the derived `hour`
column onto the stored flow frame, then detects.  The pure detector
recomputes the hour from the timestamp, which is exactly the value the
assignment writes. -/
def runDetectFlowAnomalies (t : ℚ) (st : DetectorState) :
    DetectorState × List FlowAnomaly :=
  ({ st with flow_df := addHourColumn st.flow_df },
    detectFlowAnomalies t st.flow_df)

/-- Method form of `detect_leaks`: assigns the derived `hour` column onto
the stored flow frame, then detects. -/
def runDetectLeaks (thr : ℚ) (st : DetectorState) :
    DetectorState × List LeakRecord :=
  ({ st with flow_df := addHourColumn st.flow_df },
    detectLeaks thr st.flow_df)

/-- Method form of `detect_burst_events`: reads the stored pressure frame
through filtered copies, leaving the state unchanged. -/
def runDetectBurstEvents (thr : ℚ) (st : DetectorState) :
    DetectorState × List BurstRecord :=
  (st, detectBurstEvents thr st.pressure_df)

/-! Concrete datasets used by the claim theorems below. -/

/-- A dataset whose pressure readings are constant in their zone: no
pressure anomaly and no burst is detected on it. -/
def c1PressureRows : List PressureRow :=
  [⟨0, 1, 1, 1, 50, 100, 0⟩, ⟨60, 1, 1, 1, 50, 100, 0⟩, ⟨120, 1, 1, 1, 50, 100, 0⟩]

/-- A single low-pressure reading at minute 20000. -/
def c2Rows : List PressureRow := [⟨20000, 1, 1, 1, 30, 100, 0⟩]

/-- One zone: a reading of 50.123 PSI and nine readings of 10 PSI.  The
zone mean is 14.0123 and the 50.123 reading scores above 2.5. -/
def c3Rows : List PressureRow :=
  ⟨0, 1, 1, 1, 50123/1000, 100, 0⟩ ::
    (List.range 9).map (fun i => ⟨60 * (i + 1), 1, 1, 1, 10, 100, 0⟩)

/-- One zone with seven night-hour flow readings summing to 2201 LPM:
the mean night flow 2201/7 exceeds 300 but is not an integral number of
daily litres. -/
def c4Rows : List FlowRow :=
  [⟨0, 1, 1, 300, 5000, none⟩, ⟨60, 1, 1, 310, 5000, none⟩,
   ⟨120, 1, 1, 320, 5000, none⟩, ⟨180, 1, 1, 330, 5000, none⟩,
   ⟨240, 1, 1, 311, 5000, none⟩, ⟨300, 1, 1, 315, 5000, none⟩,
   ⟨15, 1, 1, 315, 5000, none⟩]

/-- One sensor: 60 PSI followed by 35.123 PSI (a drop of 24.877). -/
def c5Rows : List PressureRow :=
  [⟨0, 1, 1, 1, 60, 100, 0⟩, ⟨60, 1, 1, 1, 35123/1000, 100, 0⟩]

/-- One zone whose population column is zero. -/
def c8Rows : List FlowRow := [⟨0, 1, 1, 100, 0, none⟩]

/-- A detector state whose stored flow frame does not yet have the
derived hour column. -/
def c9State : DetectorState := ⟨[], [⟨0, 1, 1, 100, 5000, none⟩]⟩

/-- Three readings of one sensor, all at the same timestamp. -/
def c10RowsA : List PressureRow :=
  [⟨0, 1, 1, 1, 50, 100, 0⟩, ⟨0, 1, 1, 1, 10, 100, 0⟩, ⟨0, 1, 1, 1, 50, 100, 0⟩]

/-- A permutation of `c10RowsA`. -/
def c10RowsB : List PressureRow :=
  [⟨0, 1, 1, 1, 10, 100, 0⟩, ⟨0, 1, 1, 1, 50, 100, 0⟩, ⟨0, 1, 1, 1, 50, 100, 0⟩]

/-! Helper lemmas about the statistical primitives. -/

theorem foldl_uniqStep_mem (l : List ℕ) (acc : List ℕ) (x : ℕ) :
    (x ∈ l.foldl (fun acc x => if x ∈ acc then acc else acc ++ [x]) acc) ↔
      x ∈ acc ∨ x ∈ l := by
  induction l generalizing acc with
  | nil => simp
  | cons y ys ih =>
    simp only [List.foldl_cons]
    rw [ih]
    by_cases hy : y ∈ acc
    · simp only [if_pos hy, List.mem_cons]
      constructor
      · rintro (h | h)
        · exact Or.inl h
        · exact Or.inr (Or.inr h)
      · rintro (h | rfl | h)
        · exact Or.inl h
        · exact Or.inl hy
        · exact Or.inr h
    · simp only [if_neg hy, List.mem_append, List.mem_cons, List.mem_singleton]
      tauto

theorem mem_firstUniques {l : List ℕ} {x : ℕ} : x ∈ firstUniques l ↔ x ∈ l := by
  simpa [firstUniques] using foldl_uniqStep_mem l [] x

theorem mem_sortedUniques {l : List ℕ} {x : ℕ} : x ∈ sortedUniques l ↔ x ∈ l :=
  ((List.perm_insertionSort _ _).mem_iff).trans mem_firstUniques

theorem sum_of_all_eq {l : List ℚ} {c : ℚ} (h : ∀ x ∈ l, x = c) :
    l.sum = c * l.length := by
  induction l with
  | nil => simp
  | cons x xs ih =>
    simp only [List.sum_cons, List.length_cons]
    rw [h x (by simp), ih (fun y hy => h y (by simp [hy]))]
    push_cast
    ring

theorem mean_of_all_eq {l : List ℚ} {c : ℚ} (h : ∀ x ∈ l, x = c)
    (hne : l ≠ []) : mean l = c := by
  have hlen : (l.length : ℚ) ≠ 0 := by
    exact_mod_cast fun h0 => hne (List.length_eq_zero.mp (by exact_mod_cast h0))
  rw [mean, sum_of_all_eq h, mul_div_assoc, div_self hlen, mul_one]

theorem var1_of_all_eq {l : List ℚ} {c : ℚ} (h : ∀ x ∈ l, x = c) :
    var1 l = 0 := by
  rcases l.eq_nil_or_concat with rfl | _
  · simp [var1, mean]
  · have hmean : ∀ x ∈ l, x = mean l := by
      rcases List.exists_mem_of_ne_nil l (by rintro rfl; simp_all) with ⟨a, ha⟩
      have : mean l = c := mean_of_all_eq h (by rintro rfl; simp_all)
      intro x hx
      rw [this, h x hx]
    have : (l.map (fun x => (x - mean l) ^ 2)).sum = 0 := by
      apply List.sum_eq_zero
      intro x hx
      obtain ⟨y, hy, rfl⟩ := List.mem_map.mp hx
      rw [hmean y hy]
      ring
    rw [var1, this, zero_div]

theorem var1_nonneg {l : List ℚ} (h : 2 ≤ l.length) : 0 ≤ var1 l := by
  apply div_nonneg
  · apply List.sum_nonneg
    intro x hx
    obtain ⟨y, _, rfl⟩ := List.mem_map.mp hx
    positivity
  · have : (2 : ℚ) ≤ l.length := by exact_mod_cast h
    linarith

/-- Characterization of the records emitted by
`detect_pressure_anomalies`: every emitted record comes from a source
row of its own zone whose squared deviation from the zone baseline
exceeds the squared threshold, and its fields are computed from that
row and the zone statistics. -/
theorem of_mem_detectPressureAnomalies {t : ℚ} {rows : List PressureRow}
    {a : PressureAnomaly} (ha : a ∈ detectPressureAnomalies t rows) :
    ∃ r ∈ rows, r.zone_id = a.zone_id ∧ a.pressure = r.pressure ∧
      a.expected = round2 (zoneMeanPressure rows a.zone_id) ∧
      a.deviation = round2 (r.pressure - zoneMeanPressure rows a.zone_id) ∧
      a.anomaly_type = (if r.pressure < zoneMeanPressure rows a.zone_id
        then "pressure_drop" else "pressure_spike") ∧
      t ^ 2 * zoneVarPressure rows a.zone_id <
        (r.pressure - zoneMeanPressure rows a.zone_id) ^ 2 := by
  simp only [detectPressureAnomalies, List.mem_flatMap] at ha
  obtain ⟨z, _, hz⟩ := ha
  simp only [pressureAnomaliesForZone, List.mem_map, List.mem_filter,
    decide_eq_true_eq] at hz
  obtain ⟨r, ⟨⟨hr, hrz0⟩, hcond⟩, rfl⟩ := hz
  have hrz : r.zone_id = z := by simpa using hrz0
  refine ⟨r, hr, ?_⟩
  subst hrz
  exact ⟨rfl, rfl, rfl, rfl, rfl, hcond⟩

/-- C6: for a zone whose pressure readings are all equal (zero standard
deviation) `detect_pressure_anomalies` emits no record for that zone
and does not fail: the per-row NaN scores never exceed the threshold,
which the model renders as the vacuous squared comparison `0 > 0`. -/
theorem c6_constant_zone_emits_nothing (t : ℚ) (rows : List PressureRow)
    (z : ℕ)
    (hconst : ∀ a ∈ rows, ∀ b ∈ rows,
      a.zone_id = z → b.zone_id = z → a.pressure = b.pressure) :
    ∀ r ∈ detectPressureAnomalies t rows, r.zone_id ≠ z := by
  intro a ha haz
  obtain ⟨r, hr, hrz, _, _, _, _, hcond⟩ := of_mem_detectPressureAnomalies ha
  rw [haz] at hcond
  have hrzz : r.zone_id = z := hrz.trans haz
  have hall : ∀ x ∈ (rows.filter (fun rr => rr.zone_id == z)).map
      (·.pressure), x = r.pressure := by
    intro x hx
    obtain ⟨b, hb, rfl⟩ := List.mem_map.mp hx
    have hbz := (List.mem_filter.mp hb).2
    exact hconst b (List.mem_filter.mp hb).1 r hr (by simpa using hbz) hrzz
  have hmem : r ∈ rows.filter (fun rr => rr.zone_id == z) :=
    List.mem_filter.mpr ⟨hr, by simpa using hrzz⟩
  have hμ : zoneMeanPressure rows z = r.pressure :=
    mean_of_all_eq hall (by
      intro hnil
      have : r.pressure ∈ ([] : List ℚ) := hnil ▸ List.mem_map_of_mem _ hmem
      simp at this)
  have hv : zoneVarPressure rows z = 0 := var1_of_all_eq hall
  rw [hμ, hv, mul_zero, sub_self] at hcond
  simp at hcond

/-- Zone 1 with constant readings (50 PSI) next to zone 2 with an
outlier: only zone 2 can emit anomalies. -/
def w6Rows : List PressureRow :=
  [⟨0, 1, 1, 1, 50, 100, 0⟩, ⟨60, 1, 1, 1, 50, 100, 0⟩,
   ⟨120, 1, 1, 1, 50, 100, 0⟩] ++
    (⟨0, 2, 2, 2, 10, 100, 0⟩ ::
      (List.range 9).map (fun i => ⟨60 * (i + 1), 2, 2, 2, 50, 100, 0⟩))

unseal Rat.mul Rat.inv Rat.add Rat.sub in
/-- Witness for C6: the mixed dataset emits the zone-2 outlier record,
and by the theorem that record cannot belong to the constant zone 1. -/
theorem c6_constant_zone_emits_nothing_witness :
    (⟨0, 2, 2, 2, 10, 46, -36, 81/10, "pressure_drop", "moderate"⟩ :
        PressureAnomaly) ∈ detectPressureAnomalies (5/2) w6Rows ∧
      (⟨0, 2, 2, 2, 10, 46, -36, 81/10, "pressure_drop", "moderate"⟩ :
        PressureAnomaly).zone_id ≠ 1 := by
  have hmem : (⟨0, 2, 2, 2, 10, 46, -36, 81/10, "pressure_drop", "moderate"⟩ :
      PressureAnomaly) ∈ detectPressureAnomalies (5/2) w6Rows := by decide
  exact ⟨hmem,
    c6_constant_zone_emits_nothing (5/2) w6Rows 1 (by decide) _ hmem⟩

/-- One zone: nine readings of 50 PSI and one of 10 PSI (the concrete
scenario of the specification, zone mean 46, z-score of the outlier
about 2.85). -/
def w3Rows : List PressureRow :=
  ⟨0, 1, 1, 1, 10, 100, 0⟩ ::
    (List.range 9).map (fun i => ⟨60 * (i + 1), 1, 1, 1, 50, 100, 0⟩)

/-- C3 amended: for every emitted pressure anomaly, the stored
deviation is `round2 (observed - zone mean)` and the stored expected
value is `round2 (zone mean)` (so deviation equals observed minus
expected only up to these roundings), and the anomaly kind is
`pressure_drop` exactly when the observed value is below the zone mean
and `pressure_spike` otherwise. -/
theorem c3_deviation_rounded_and_kind_sign (rows : List PressureRow)
    (r : PressureAnomaly) (hr : r ∈ detectPressureAnomalies (5/2) rows) :
    r.deviation = round2 (r.pressure - zoneMeanPressure rows r.zone_id) ∧
    r.expected = round2 (zoneMeanPressure rows r.zone_id) ∧
    (r.anomaly_type = "pressure_drop" ↔
      r.pressure < zoneMeanPressure rows r.zone_id) ∧
    (r.anomaly_type = "pressure_spike" ↔
      ¬ r.pressure < zoneMeanPressure rows r.zone_id) := by
  obtain ⟨row, _, _, hp, hexp, hdev, hkind, _⟩ :=
    of_mem_detectPressureAnomalies hr
  rw [hp]
  refine ⟨hdev, hexp, ?_, ?_⟩ <;> rw [hkind] <;>
    by_cases hlt : row.pressure < zoneMeanPressure rows r.zone_id <;>
    simp [hlt]

unseal Rat.mul Rat.inv Rat.add Rat.sub in
/-- Witness for C3: on the nine-50s-one-10 dataset the outlier record
is emitted and the amended field equations hold for it. -/
theorem c3_deviation_rounded_and_kind_sign_witness :
    (⟨0, 1, 1, 1, 10, 46, -36, 81/10, "pressure_drop", "moderate"⟩ :
        PressureAnomaly) ∈ detectPressureAnomalies (5/2) w3Rows ∧
      (⟨0, 1, 1, 1, 10, 46, -36, 81/10, "pressure_drop", "moderate"⟩ :
        PressureAnomaly).deviation = round2
          ((⟨0, 1, 1, 1, 10, 46, -36, 81/10, "pressure_drop", "moderate"⟩ :
            PressureAnomaly).pressure - zoneMeanPressure w3Rows
            (⟨0, 1, 1, 1, 10, 46, -36, 81/10, "pressure_drop", "moderate"⟩ :
              PressureAnomaly).zone_id) := by
  have hmem : (⟨0, 1, 1, 1, 10, 46, -36, 81/10, "pressure_drop", "moderate"⟩ :
      PressureAnomaly) ∈ detectPressureAnomalies (5/2) w3Rows := by decide
  exact ⟨hmem, (c3_deviation_rounded_and_kind_sign w3Rows _ hmem).1⟩

/-- Five readings of 10 LPM and one of 90 LPM, all in the hour-0 bucket
of one zone: the bucket has six observations, positive variance, and
the 90 LPM reading scores above 2. -/
def c7Rows : List FlowRow :=
  [⟨0, 1, 1, 10, 5000, none⟩, ⟨1, 1, 1, 10, 5000, none⟩,
   ⟨2, 1, 1, 10, 5000, none⟩, ⟨3, 1, 1, 10, 5000, none⟩,
   ⟨4, 1, 1, 10, 5000, none⟩, ⟨5, 1, 1, 90, 5000, none⟩]

/-- C7: every emitted flow anomaly comes from a (zone, hour-of-day)
bucket with at least 5 observations and positive variance, and its
squared z-score strictly exceeds the squared default threshold 2.0 —
equivalently, buckets with fewer than 5 observations or zero standard
deviation contribute no record. -/
theorem c7_flow_bucket_guards (rows : List FlowRow) (r : FlowAnomaly)
    (hr : r ∈ detectFlowAnomalies 2 rows) :
    5 ≤ (flowBucket rows r.zone_id (hourOf r.ts)).length ∧
    0 < var1 ((flowBucket rows r.zone_id (hourOf r.ts)).map (·.flow)) ∧
    2 ^ 2 * var1 ((flowBucket rows r.zone_id (hourOf r.ts)).map (·.flow)) <
      (r.flow - mean ((flowBucket rows r.zone_id (hourOf r.ts)).map (·.flow))) ^ 2 := by
  simp only [detectFlowAnomalies, List.mem_flatMap, List.mem_range] at hr
  obtain ⟨z, _, h, _, hmem⟩ := hr
  simp only [flowAnomaliesForZoneHour] at hmem
  split at hmem
  · simp at hmem
  next hlen =>
  split at hmem
  · simp at hmem
  next hvar =>
  simp only [List.mem_map, List.mem_filter, decide_eq_true_eq] at hmem
  obtain ⟨row, ⟨hrowb, hcond⟩, rfl⟩ := hmem
  have hpred := (List.mem_filter.mp (show row ∈ List.filter
      (fun rr => rr.zone_id == z && hourOf rr.ts == h) rows from hrowb)).2
  simp only [Bool.and_eq_true, beq_iff_eq] at hpred
  obtain ⟨hz1, hh1⟩ := hpred
  subst hz1
  subst hh1
  have h5 : 5 ≤ (flowBucket rows row.zone_id (hourOf row.ts)).length :=
    Nat.le_of_not_lt hlen
  refine ⟨h5, ?_, hcond⟩
  refine lt_of_le_of_ne ?_ (Ne.symm hvar)
  apply var1_nonneg
  rw [List.length_map]
  exact Nat.le_trans (by norm_num) h5

unseal Rat.mul Rat.inv Rat.add Rat.sub in
/-- Witness for C7: on the hour-0 bucket of six readings the 90 LPM
outlier is emitted from a bucket with at least five observations and
positive variance. -/
theorem c7_flow_bucket_guards_witness :
    (⟨5, 1, 1, 90, 2333/100, 6667/100, 25/6, "excessive_flow", "low",
        "Potential leak (high night flow)"⟩ : FlowAnomaly) ∈
      detectFlowAnomalies 2 c7Rows ∧
    5 ≤ (flowBucket c7Rows 1 (hourOf 5)).length ∧
    0 < var1 ((flowBucket c7Rows 1 (hourOf 5)).map (·.flow)) := by
  have hmem : (⟨5, 1, 1, 90, 2333/100, 6667/100, 25/6, "excessive_flow", "low",
      "Potential leak (high night flow)"⟩ : FlowAnomaly) ∈
      detectFlowAnomalies 2 c7Rows := by decide
  have h := c7_flow_bucket_guards c7Rows _ hmem
  exact ⟨hmem, h.1, h.2.1⟩

theorem nightRows_idem (rows : List FlowRow) :
    nightRows (nightRows rows) = nightRows rows :=
  List.filter_eq_self.mpr (fun _ ha => (List.mem_filter.mp ha).2)

theorem leakForZone_pos {thr : ℚ} (rows : List FlowRow) (z : ℕ)
    (h : thr < nightMeanFlow rows z) :
    leakForZone thr rows z = [{
      zone_id := z,
      zone_name := headZoneName ((nightRows rows).filter (fun r => r.zone_id == z)),
      avg_night_flow := round2 (nightMeanFlow rows z),
      daily_loss := round0 (nightMeanFlow rows z * 60 * 24),
      monthly_loss := round0 (nightMeanFlow rows z * 60 * 24 * 30),
      severity := if 500 < nightMeanFlow rows z then "high" else "moderate",
      confidence := if 400 < nightMeanFlow rows z then "high" else "medium",
      action := if 500 < nightMeanFlow rows z then "Immediate inspection required"
        else "Schedule inspection" }] := by
  simp only [leakForZone]
  split
  · rfl
  · next hn => exact absurd h hn

theorem leakForZone_neg {thr : ℚ} (rows : List FlowRow) (z : ℕ)
    (h : ¬ thr < nightMeanFlow rows z) : leakForZone thr rows z = [] := by
  simp only [leakForZone]
  split
  · next hc => exact absurd hc h
  · rfl

/-- C4 amended: `detect_leaks` emits a record for a zone iff the mean of
the zone's night-hour (0–5) flow readings exceeds the threshold;
readings at other hours never affect the result; severity, confidence
and the threshold tests use the exact mean, while the stored estimated
daily loss is the mean night flow × 60 × 24 rounded to the nearest
integer (not the exact product). -/
theorem c4_leak_threshold_hours_and_rounded_loss (rows : List FlowRow) :
    (∀ r ∈ detectLeaks 300 rows,
      300 < nightMeanFlow rows r.zone_id ∧
      r.avg_night_flow = round2 (nightMeanFlow rows r.zone_id) ∧
      r.daily_loss = round0 (nightMeanFlow rows r.zone_id * 60 * 24) ∧
      (r.severity = "high" ↔ 500 < nightMeanFlow rows r.zone_id) ∧
      (r.severity = "moderate" ↔ ¬ 500 < nightMeanFlow rows r.zone_id) ∧
      (r.confidence = "high" ↔ 400 < nightMeanFlow rows r.zone_id) ∧
      (r.confidence = "medium" ↔ ¬ 400 < nightMeanFlow rows r.zone_id)) ∧
    (∀ z : ℕ, (∃ fr ∈ rows, fr.zone_id = z ∧ hourOf fr.ts ≤ 5) →
      300 < nightMeanFlow rows z →
      ∃ r ∈ detectLeaks 300 rows, r.zone_id = z) ∧
    (∀ thr : ℚ, detectLeaks thr (nightRows rows) = detectLeaks thr rows) ∧
    ((∀ fr ∈ rows, ¬ hourOf fr.ts ≤ 5) → detectLeaks 300 rows = []) := by
  refine ⟨?_, ?_, ?_, ?_⟩
  · intro r hr
    simp only [detectLeaks, List.mem_flatMap] at hr
    obtain ⟨z, _, hz⟩ := hr
    by_cases hc : (300 : ℚ) < nightMeanFlow rows z
    · rw [leakForZone_pos rows z hc, List.mem_singleton] at hz
      subst hz
      refine ⟨hc, rfl, rfl, ?_, ?_, ?_, ?_⟩
      · by_cases h5 : (500 : ℚ) < nightMeanFlow rows z <;> simp [h5]
      · by_cases h5 : (500 : ℚ) < nightMeanFlow rows z <;> simp [h5]
      · by_cases h4 : (400 : ℚ) < nightMeanFlow rows z <;> simp [h4]
      · by_cases h4 : (400 : ℚ) < nightMeanFlow rows z <;> simp [h4]
    · rw [leakForZone_neg rows z hc] at hz
      simp at hz
  · intro z hzrows hcond
    obtain ⟨fr, hfr, hfz, hfh⟩ := hzrows
    have hfrn : fr ∈ nightRows rows :=
      List.mem_filter.mpr ⟨hfr, by simpa using hfh⟩
    have hzu : z ∈ firstUniques ((nightRows rows).map (·.zone_id)) :=
      mem_firstUniques.mpr (hfz ▸ List.mem_map_of_mem _ hfrn)
    exact ⟨_, List.mem_flatMap.mpr ⟨z, hzu,
      by rw [leakForZone_pos rows z hcond]; exact List.mem_singleton.mpr rfl⟩, rfl⟩
  · intro thr
    simp only [detectLeaks]
    rw [nightRows_idem]
    apply List.flatMap_congr
    intro z _
    simp only [leakForZone, nightRows_idem]
  · intro hall
    have hnil : nightRows rows = [] := by
      simp only [nightRows, List.filter_eq_nil_iff]
      intro a ha
      simpa using hall a ha
    simp [detectLeaks, hnil, firstUniques]

/-- One zone with six night readings of 350 LPM (hours 0–5) and one day
reading of 50 LPM at hour 12: mean night flow 350 exceeds the
threshold. -/
def w4Rows : List FlowRow :=
  [⟨0, 1, 1, 350, 5000, none⟩, ⟨60, 1, 1, 350, 5000, none⟩,
   ⟨120, 1, 1, 350, 5000, none⟩, ⟨180, 1, 1, 350, 5000, none⟩,
   ⟨240, 1, 1, 350, 5000, none⟩, ⟨300, 1, 1, 350, 5000, none⟩,
   ⟨720, 1, 1, 50, 5000, none⟩]

unseal Rat.mul Rat.inv Rat.add Rat.sub in
/-- Witness for C4: on the 350-LPM-night dataset a leak record is
emitted for the zone whose mean night flow exceeds 300. -/
theorem c4_leak_threshold_hours_and_rounded_loss_witness :
    (300 : ℚ) < nightMeanFlow w4Rows 1 ∧ detectLeaks 300 w4Rows ≠ [] := by
  refine ⟨by decide, ?_⟩
  obtain ⟨r, hr, -⟩ := (c4_leak_threshold_hours_and_rounded_loss w4Rows).2.1 1
    ⟨⟨0, 1, 1, 350, 5000, none⟩, by decide, rfl, by decide⟩ (by decide)
  exact List.ne_nil_of_mem hr

/-- One sensor with consecutive readings 60, 60, 35 PSI (the concrete
scenario of the specification). -/
def w5Rows : List PressureRow :=
  [⟨0, 1, 1, 1, 60, 100, 0⟩, ⟨60, 1, 1, 1, 60, 100, 0⟩, ⟨120, 1, 1, 1, 35, 100, 0⟩]

unseal Rat.mul Rat.inv Rat.add Rat.sub in
/-- C5 amended: `detect_burst_events` emits a record exactly at the
consecutive timestamp-sorted pairs of a sensor whose difference is
strictly more negative than the negated threshold; the stored
pressure-before, pressure-after and drop fields are the previous value,
the current value and the drop magnitude each rounded to two decimals
(not the exact values); severity is critical iff the unrounded drop
magnitude strictly exceeds 25; and the 60→60→35 scenario yields exactly
one record with drop 25 and severity high. -/
theorem c5_burst_pairs_and_rounded_fields (rows : List PressureRow) :
    (∀ r ∈ detectBurstEvents 15 rows,
      ∃ pc ∈ consecPairs (sortByTs
          (rows.filter (fun q => q.sensor_id == r.sensor_id))),
        pc.2.pressure - pc.1.pressure < -15 ∧
        r.pressure_before = round2 pc.1.pressure ∧
        r.pressure_after = round2 pc.2.pressure ∧
        r.pressure_drop = round2 |pc.2.pressure - pc.1.pressure| ∧
        (r.severity = "critical" ↔ 25 < |pc.2.pressure - pc.1.pressure|) ∧
        (r.severity = "high" ↔ ¬ 25 < |pc.2.pressure - pc.1.pressure|)) ∧
    (∀ s : ℕ, (∃ q ∈ rows, q.sensor_id = s) →
      ∀ pc ∈ consecPairs (sortByTs (rows.filter (fun q => q.sensor_id == s))),
        pc.2.pressure - pc.1.pressure < -15 →
        ∃ r ∈ detectBurstEvents 15 rows,
          r.ts = pc.2.ts ∧ r.sensor_id = pc.2.sensor_id ∧
          r.pressure_before = round2 pc.1.pressure ∧
          r.pressure_after = round2 pc.2.pressure ∧
          r.pressure_drop = round2 |pc.2.pressure - pc.1.pressure|) ∧
    detectBurstEvents 15 w5Rows = [⟨120, 1, 1, 1, 60, 35, 25, "high",
      "potential_burst", "Emergency response required"⟩] := by
  refine ⟨?_, ?_, by decide⟩
  · intro r hr
    simp only [detectBurstEvents, List.mem_flatMap] at hr
    obtain ⟨s, _, hz⟩ := hr
    simp only [burstsOfSorted, List.mem_map, List.mem_filter,
      decide_eq_true_eq] at hz
    obtain ⟨pc, ⟨hpc, hcond⟩, rfl⟩ := hz
    have hpc2 : pc.2 ∈ sortByTs (rows.filter (fun q => q.sensor_id == s)) :=
      List.mem_of_mem_tail (List.of_mem_zip hpc).2
    have hps : pc.2.sensor_id = s := by
      have := (List.mem_filter.mp
        ((List.perm_insertionSort _ _).mem_iff.mp hpc2)).2
      simpa using this
    refine ⟨pc, ?_, hcond, ?_, rfl, rfl, ?_, ?_⟩
    · show pc ∈ consecPairs (sortByTs (rows.filter (fun q => q.sensor_id == pc.2.sensor_id)))
      rw [hps]
      exact hpc
    · show round2 (pc.2.pressure - (pc.2.pressure - pc.1.pressure)) = round2 pc.1.pressure
      rw [sub_sub_cancel]
    · by_cases h25 : 25 < |pc.2.pressure - pc.1.pressure| <;> simp [h25]
    · by_cases h25 : 25 < |pc.2.pressure - pc.1.pressure| <;> simp [h25]
  · intro s hs pc hpc hcond
    obtain ⟨q, hq, hqs⟩ := hs
    have hsu : s ∈ firstUniques (rows.map (·.sensor_id)) :=
      mem_firstUniques.mpr (hqs ▸ List.mem_map_of_mem _ hq)
    refine ⟨{
        ts := pc.2.ts, zone_id := pc.2.zone_id, zone_name := pc.2.zone_name,
        sensor_id := pc.2.sensor_id,
        pressure_before := round2 (pc.2.pressure - (pc.2.pressure - pc.1.pressure)),
        pressure_after := round2 pc.2.pressure,
        pressure_drop := round2 |pc.2.pressure - pc.1.pressure|,
        severity := if 25 < |pc.2.pressure - pc.1.pressure| then "critical" else "high",
        event_type := "potential_burst",
        action := "Emergency response required" },
      List.mem_flatMap.mpr ⟨s, hsu, ?_⟩, rfl, rfl, ?_, rfl, rfl⟩
    · simp only [burstsOfSorted, List.mem_map]
      exact ⟨pc, List.mem_filter.mpr ⟨hpc, by simpa using hcond⟩, rfl⟩
    · show round2 (pc.2.pressure - (pc.2.pressure - pc.1.pressure)) = round2 pc.1.pressure
      rw [sub_sub_cancel]

unseal Rat.mul Rat.inv Rat.add Rat.sub in
/-- Witness for C5: the consecutive sorted pair 60→35 of the scenario
dataset drops below the threshold, so burst detection emits a record. -/
theorem c5_burst_pairs_and_rounded_fields_witness :
    detectBurstEvents 15 w5Rows ≠ [] := by
  obtain ⟨r, hr, -⟩ := (c5_burst_pairs_and_rounded_fields w5Rows).2.1 1
    ⟨⟨0, 1, 1, 1, 60, 100, 0⟩, by decide, rfl⟩
    (⟨60, 1, 1, 1, 60, 100, 0⟩, ⟨120, 1, 1, 1, 35, 100, 0⟩)
    (by decide) (by decide)
  exact List.ne_nil_of_mem hr

/-- C2 amended: the core computations are deterministic once the
reference instant is fixed: the result of `get_low_pressure_zones` (and
of the recommendations built on it) depends on the wall-clock `now`
only through which readings fall inside the trailing 7-day window, so
two runs whose windows select the same readings agree; runs at times
that window the snapshot differently may disagree (see the
counterexample). -/
theorem c2_deterministic_given_reference_now (prows : List PressureRow)
    (frows : List FlowRow) (now1 now2 : ℕ)
    (h : ∀ r ∈ prows, inRecentWindow now1 r ↔ inRecentWindow now2 r) :
    (∀ threshold : ℚ, getLowPressureZones threshold now1 prows =
      getLowPressureZones threshold now2 prows) ∧
    getRecommendations prows frows now1 = getRecommendations prows frows now2 := by
  have hrec : prows.filter (fun r => decide (inRecentWindow now1 r)) =
      prows.filter (fun r => decide (inRecentWindow now2 r)) :=
    List.filter_congr (fun x hx => decide_eq_decide.mpr (h x hx))
  have h1 : ∀ threshold : ℚ, getLowPressureZones threshold now1 prows =
      getLowPressureZones threshold now2 prows := by
    intro threshold
    simp only [getLowPressureZones, hrec]
  exact ⟨h1, by simp only [getRecommendations, h1 35]⟩

unseal Rat.mul Rat.inv Rat.add Rat.sub in
/-- Witness for C2: two reference instants whose 7-day windows both
contain the single reading give identical results. -/
theorem c2_deterministic_given_reference_now_witness :
    getLowPressureZones 35 20000 c2Rows = getLowPressureZones 35 25000 c2Rows :=
  (c2_deterministic_given_reference_now c2Rows [] 20000 25000 (by decide)).1 35

theorem flowStatsForZone_pop_zero (rows : List FlowRow) (z : ℕ)
    (hpop : (flowStatsForZone rows z).population = 0) :
    (0 < (flowStatsForZone rows z).avg_flow →
      (flowStatsForZone rows z).per_capita_flow = XVal.pinf) ∧
    ((flowStatsForZone rows z).avg_flow = 0 →
      (flowStatsForZone rows z).per_capita_flow = XVal.nan) ∧
    ∀ q : ℚ, (flowStatsForZone rows z).per_capita_flow ≠ XVal.fin q := by
  simp only [flowStatsForZone] at hpop ⊢
  rw [hpop, divX]
  simp only [if_pos rfl]
  refine ⟨?_, ?_, ?_⟩
  · intro hpos
    rw [if_pos hpos]
    rfl
  · intro h0
    rw [h0]
    simp [mulXpos, round4X]
  · intro q
    by_cases hpos : 0 < round2 (mean ((rows.filter
        (fun r => r.zone_name == z)).map (·.flow)))
    · rw [if_pos hpos]
      simp [mulXpos, round4X]
    · rw [if_neg hpos]
      by_cases hneg : round2 (mean ((rows.filter
          (fun r => r.zone_name == z)).map (·.flow))) < 0
      · rw [if_pos hneg]
        simp [mulXpos, round4X]
      · rw [if_neg hneg]
        simp [mulXpos, round4X]

/-- C8 amended: `get_flow_statistics` produces an entry for every zone
without raising; the per-capita flow is the rounded mean flow divided
by the population times 1000 (rounded to 4 decimals).  For a zone with
population zero the division does not raise but yields a non-finite
IEEE sentinel: +infinity when the rounded mean flow is positive (not
NaN), and NaN only when it is zero. -/
theorem c8_per_capita_formula_and_sentinel (rows : List FlowRow) (z : ℕ)
    (hz : ∃ fr ∈ rows, fr.zone_name = z) :
    ∃ e ∈ getFlowStatistics rows, e.zone_name = z ∧
      e.per_capita_flow = round4X (mulXpos 1000 (divX e.avg_flow e.population)) ∧
      (e.population = 0 →
        (0 < e.avg_flow → e.per_capita_flow = XVal.pinf) ∧
        (e.avg_flow = 0 → e.per_capita_flow = XVal.nan) ∧
        ∀ q : ℚ, e.per_capita_flow ≠ XVal.fin q) := by
  obtain ⟨fr, hfr, rfl⟩ := hz
  have hzmem : fr.zone_name ∈ sortedUniques (rows.map (·.zone_name)) :=
    mem_sortedUniques.mpr (List.mem_map_of_mem _ hfr)
  exact ⟨flowStatsForZone rows fr.zone_name,
    List.mem_map_of_mem _ hzmem, rfl, rfl,
    flowStatsForZone_pop_zero rows fr.zone_name⟩

unseal Rat.mul Rat.inv Rat.add Rat.sub in
/-- Witness for C8: on the zero-population dataset the single zone gets
an entry (the statistics do not raise). -/
theorem c8_per_capita_formula_and_sentinel_witness :
    getFlowStatistics c8Rows ≠ [] := by
  obtain ⟨e, he, -⟩ :=
    c8_per_capita_formula_and_sentinel c8Rows 1
      ⟨⟨0, 1, 1, 100, 0, none⟩, by decide, rfl⟩
  exact List.ne_nil_of_mem he

/-- The reading fields of a flow row (everything except the derived
hour column). -/
def coreFlowFields (r : FlowRow) : ℕ × ℕ × ℕ × ℚ × ℚ :=
  (r.ts, r.zone_id, r.zone_name, r.flow, r.population)

theorem addHourColumn_idem (l : List FlowRow) :
    addHourColumn (addHourColumn l) = addHourColumn l := by
  rw [addHourColumn, addHourColumn, List.map_map]
  rfl

/-- C9 amended: the pressure detectors leave the stored state exactly
unchanged; the flow detectors leave the stored pressure frame unchanged
and modify the stored flow frame only by (re)writing the derived hour
column — every reading field survives, and re-running a flow detector
leaves the state fixed. -/
theorem c9_detectors_preserve_reading_fields (t thr : ℚ) (st : DetectorState) :
    (runDetectPressureAnomalies t st).1 = st ∧
    (runDetectBurstEvents thr st).1 = st ∧
    (runDetectFlowAnomalies t st).1.pressure_df = st.pressure_df ∧
    (runDetectFlowAnomalies t st).1.flow_df.map coreFlowFields =
      st.flow_df.map coreFlowFields ∧
    (runDetectLeaks thr st).1.pressure_df = st.pressure_df ∧
    (runDetectLeaks thr st).1.flow_df.map coreFlowFields =
      st.flow_df.map coreFlowFields ∧
    (runDetectLeaks thr (runDetectLeaks thr st).1).1 =
      (runDetectLeaks thr st).1 ∧
    (runDetectFlowAnomalies t (runDetectFlowAnomalies t st).1).1 =
      (runDetectFlowAnomalies t st).1 := by
  refine ⟨rfl, rfl, rfl, ?_, rfl, ?_, ?_, ?_⟩
  · show (addHourColumn st.flow_df).map coreFlowFields =
      st.flow_df.map coreFlowFields
    rw [addHourColumn, List.map_map]
    rfl
  · show (addHourColumn st.flow_df).map coreFlowFields =
      st.flow_df.map coreFlowFields
    rw [addHourColumn, List.map_map]
    rfl
  · simp only [runDetectLeaks]
    rw [addHourColumn_idem]
  · simp only [runDetectFlowAnomalies]
    rw [addHourColumn_idem]

instance : IsTotal PressureRow (fun a b => a.ts ≤ b.ts) :=
  ⟨fun a b => Nat.le_total a.ts b.ts⟩

instance : IsTrans PressureRow (fun a b => a.ts ≤ b.ts) :=
  ⟨fun _ _ _ => Nat.le_trans⟩

theorem sortByTs_strict_of_nodup {l : List PressureRow}
    (h : (l.map (·.ts)).Nodup) :
    List.Pairwise (fun a b => a.ts < b.ts) (sortByTs l) := by
  have hs : List.Sorted (fun a b : PressureRow => a.ts ≤ b.ts) (sortByTs l) :=
    List.sorted_insertionSort _ l
  have hnd : ((sortByTs l).map (·.ts)).Nodup :=
    (((List.perm_insertionSort _ l).map (·.ts)).nodup_iff).mpr h
  have hne : List.Pairwise (fun a b : PressureRow => a.ts ≠ b.ts) (sortByTs l) :=
    List.pairwise_map.mp hnd
  exact (hs.and hne).imp (fun hab => Nat.lt_of_le_of_ne hab.1 hab.2)

theorem sortByTs_eq_of_perm {l l' : List PressureRow} (hp : l.Perm l')
    (hnd : (l.map (·.ts)).Nodup) : sortByTs l = sortByTs l' := by
  have hperm : (sortByTs l).Perm (sortByTs l') :=
    (List.perm_insertionSort _ l).trans (hp.trans (List.perm_insertionSort _ l').symm)
  have hnd' : (l'.map (·.ts)).Nodup := ((hp.map (·.ts)).nodup_iff).mp hnd
  haveI : IsAntisymm PressureRow (fun a b => a.ts < b.ts) :=
    ⟨fun _ _ h1 h2 => absurd (Nat.lt_trans h1 h2) (Nat.lt_irrefl _)⟩
  exact List.eq_of_perm_of_sorted hperm (sortByTs_strict_of_nodup hnd)
    (sortByTs_strict_of_nodup hnd')

/-- C10 amended: burst detection is invariant under permutations of the
input rows provided the timestamps within each sensor are pairwise
distinct (so that the timestamp sort has a unique result) and the
first-occurrence order of the sensors is preserved; with duplicated
timestamps the invariance fails (see the counterexample). -/
theorem c10_perm_invariant_on_distinct_timestamps (thr : ℚ)
    (rows rows' : List PressureRow) (hp : rows.Perm rows')
    (hu : firstUniques (rows.map (·.sensor_id)) =
      firstUniques (rows'.map (·.sensor_id)))
    (hnd : ∀ s ∈ firstUniques (rows.map (·.sensor_id)),
      ((rows.filter (fun r => r.sensor_id == s)).map (·.ts)).Nodup) :
    detectBurstEvents thr rows = detectBurstEvents thr rows' := by
  simp only [detectBurstEvents]
  rw [← hu]
  apply List.flatMap_congr
  intro s hs
  rw [sortByTs_eq_of_perm (hp.filter _) (hnd s hs)]

/-- Two readings of one sensor at distinct timestamps. -/
def w10RowsA : List PressureRow :=
  [⟨0, 1, 1, 1, 60, 100, 0⟩, ⟨60, 1, 1, 1, 35, 100, 0⟩]

/-- The reversal of `w10RowsA`. -/
def w10RowsB : List PressureRow :=
  [⟨60, 1, 1, 1, 35, 100, 0⟩, ⟨0, 1, 1, 1, 60, 100, 0⟩]

unseal Rat.mul Rat.inv Rat.add Rat.sub in
/-- Witness for C10: with distinct timestamps, the two orderings of the
sensor readings produce identical burst records. -/
theorem c10_perm_invariant_on_distinct_timestamps_witness :
    w10RowsA.Perm w10RowsB ∧
      detectBurstEvents 15 w10RowsA = detectBurstEvents 15 w10RowsB :=
  ⟨by decide, c10_perm_invariant_on_distinct_timestamps 15 w10RowsA w10RowsB
    (by decide) (by decide) (by decide)⟩

unseal Rat.mul Rat.inv Rat.add Rat.sub in
/-- C1: the claim says `get_anomaly_summary` returns a count dictionary
with zero counts even when detector outputs are empty.  The code
instead raises a `KeyError` on the severity column of the empty
pressure-anomaly (or burst) DataFrame: on a dataset of constant
pressure readings the summary fails instead of reporting zeros. -/
theorem c1_summary_keyerror_on_empty_output :
    getAnomalySummary c1PressureRows [] = Except.error "KeyError: severity" := by
  rfl

unseal Rat.mul Rat.inv Rat.add Rat.sub in
/-- C2 counterexample: `get_low_pressure_zones` reads the wall clock;
the same snapshot evaluated at two different reference instants (the
reading inside the 7-day window versus outside it) yields different
results, refuting determinism across wall-clock times. -/
theorem c2_wall_clock_changes_low_pressure_zones :
    getLowPressureZones 35 20000 c2Rows ≠ getLowPressureZones 35 40000 c2Rows := by
  decide

unseal Rat.mul Rat.inv Rat.add Rat.sub in
/-- C3 counterexample: an emitted pressure anomaly whose stored
deviation (`round2 (50.123 - 14.0123) = 36.11`) differs from stored
observed minus stored expected (`50.123 - 14.01 = 36.113`). -/
theorem c3_deviation_not_observed_minus_expected :
    ∃ r ∈ detectPressureAnomalies (5/2) c3Rows,
      r.deviation ≠ r.pressure - r.expected := by
  decide

unseal Rat.mul Rat.inv Rat.add Rat.sub in
/-- C4 counterexample: a leak record whose stored estimated daily loss
(the rounded 452777) differs from mean night flow × 60 × 24
(= 3169440/7). -/
theorem c4_daily_loss_not_exact :
    ∃ r ∈ detectLeaks 300 c4Rows,
      r.daily_loss ≠ nightMeanFlow c4Rows r.zone_id * 60 * 24 := by
  decide

unseal Rat.mul Rat.inv Rat.add Rat.sub in
/-- C5 counterexample: a burst record whose stored pressure-after
(rounded to 35.12) equals the pressure of no reading of the dataset, in
particular not the current (post-drop) value 35.123. -/
theorem c5_after_field_rounded :
    ∃ r ∈ detectBurstEvents 15 c5Rows,
      ∀ row ∈ c5Rows, r.pressure_after ≠ row.pressure := by
  decide

unseal Rat.mul Rat.inv Rat.add Rat.sub in
/-- C8 counterexample: for a zone with population 0 and positive mean
flow, the per-capita column holds +infinity (IEEE division), not the
claimed not-a-number sentinel. -/
theorem c8_zero_population_reports_infinity :
    (getFlowStatistics c8Rows).map (·.per_capita_flow) = [XVal.pinf] ∧
      XVal.pinf ≠ XVal.nan := by
  decide

unseal Rat.mul Rat.inv Rat.add Rat.sub in
/-- C9 counterexample: running `detect_leaks` mutates the stored
reading collections — the stored flow frame gains the derived hour
column, so the state after the call differs from the state before. -/
theorem c9_detect_leaks_mutates_state :
    (runDetectLeaks 300 c9State).1 ≠ c9State := by
  decide

unseal Rat.mul Rat.inv Rat.add Rat.sub in
/-- C10 counterexample: with duplicated timestamps the timestamp sort
cannot recover a canonical order, so burst detection is not invariant
under permutation of a sensor's readings: one ordering of three
same-timestamp readings yields a burst, another yields none. -/
theorem c10_tied_timestamps_not_order_invariant :
    c10RowsA.Perm c10RowsB ∧
      detectBurstEvents 15 c10RowsA ≠ detectBurstEvents 15 c10RowsB := by
  constructor
  · decide
  · decide

end WaterSys
